import Mathlib

/-!
Shallow embedding of `scripts/parity_streak_gate.py`: a release gate that
inspects the most recent completed runs of a nightly workflow, downloads a
JSON report artifact from each, and passes only when the last
`required_streak` runs all succeeded with passing reports.

JSON values are modelled by `JVal` with Python truthiness (`truthy`);
reports are association lists; network and archive effects are modelled as
`Except`-valued data carried by the world, and `main` additionally returns
the list of requests it issued so that short-circuit and pre-flight
properties can be stated.
-/

namespace ParityGate

/-- A JSON value as decoded by `json.loads`; numbers are restricted to
integers, which is all the gate's policy ever inspects. -/
inductive JVal where
  | null
  | bool (b : Bool)
  | num (n : Int)
  | str (s : String)
  | arr (xs : List JVal)
  | obj (fields : List (String × JVal))

/-- Python truthiness `bool(value)` on a decoded JSON value. -/
def truthy : JVal → Bool
  | .null => false
  | .bool b => b
  | .num n => n != 0
  | .str s => !s.isEmpty
  | .arr xs => !xs.isEmpty
  | .obj fs => !fs.isEmpty

/-- A decoded JSON report object (`dict` in the source): association list of
fields. -/
abbrev Report := List (String × JVal)

/-- `report.get(key)`: the value of the first field named `key`, if any. -/
def rget (report : Report) (key : String) : Option JVal :=
  (report.find? (fun kv => kv.1 == key)).map (fun kv => kv.2)

/-- Python's `value is False` on the result of `dict.get`: true exactly for
the JSON boolean `false` (not for `0`, `""`, `None` or a missing key). -/
def is_false : Option JVal → Bool
  | some (.bool false) => true
  | _ => false

/-- `_report_passes` from the source: fail if `overall_pass` is explicitly
`false`; else if `required_journeys` is a mapping, pass iff all its values
are truthy; else fall back to the truthiness of `overall_pass`, defaulting
to `True` when absent. -/
def report_passes (report : Report) : Bool :=
  if is_false (rget report "overall_pass") then false
  else
    match rget report "required_journeys" with
    | some (.obj fields) => fields.all (fun kv => truthy kv.2)
    | _ => truthy ((rget report "overall_pass").getD (.bool true))

/-- One entry of the downloaded ZIP archive: its path and the result of
reading and JSON-decoding it (`Except` models a decode failure). -/
structure ZipEntry where
  name : String
  content : Except String Report

/-- One artifact of a run: its name, and the outcome of downloading and
opening its archive (transport or ZIP errors collapse into `.error`). -/
structure Artifact where
  name : String
  archiveResult : Except String (List ZipEntry)

/-- The JSON payload of the list-artifacts endpoint; `none` models a
response object lacking the `"artifacts"` key. -/
structure ArtifactsPayload where
  artifacts : Option (List Artifact)

/-- Python `s.endswith(suffix)`, computed on the character lists so that it
reduces inside the kernel. -/
def strEndsWith (s suffix : String) : Bool :=
  suffix.data.isSuffixOf s.data

/-- Formats an optional integer the way a Python f-string formats
`run.get("id")`: `None` when missing. -/
def fmtOpt : Option Int → String
  | none => "None"
  | some n => toString n

/-- Formats an optional string the way a Python f-string formats
`run.get("conclusion")`. -/
def fmtOptStr : Option String → String
  | none => "None"
  | some s => s

/-- `_load_report_from_run`: fetch the run's artifact list, find the
`parity-journey-report` artifact, open its archive, find the entry ending in
`parity_journey_report.json` and decode it. Any raised exception is an
`.error` carrying the message printed by the gate. -/
def load_report_from_run (runId : Option Int)
    (artifactsResult : Except String ArtifactsPayload) : Except String Report :=
  match artifactsResult with
  | .error e => .error e
  | .ok payload =>
    let artifacts := payload.artifacts.getD []
    match artifacts.find? (fun a => a.name == "parity-journey-report") with
    | none =>
      let idStr := fmtOpt runId
      .error s!"run {idStr} missing parity-journey-report artifact"
    | some artifact =>
      match artifact.archiveResult with
      | .error e => .error e
      | .ok entries =>
        match entries.find? (fun entry => strEndsWith entry.name "parity_journey_report.json") with
        | none =>
          let idStr := fmtOpt runId
          .error s!"run {idStr} artifact missing parity_journey_report.json"
        | some entry => entry.content

/-- One workflow run as returned by the list-runs endpoint, bundled with the
world's answer to the artifact fetches this run would trigger. -/
structure RunData where
  id : Option Int
  conclusion : Option String
  artifactsResult : Except String ArtifactsPayload

/-- The JSON payload of the list-runs endpoint; `none` models a response
object lacking the `"workflow_runs"` key. -/
structure ListRunsPayload where
  workflow_runs : Option (List RunData)

/-- The world outside the gate: the outcome of the list-runs request
(per-run artifact outcomes live inside each `RunData`). -/
structure World where
  listRunsResult : Except String ListRunsPayload

/-- The environment configuration; `none` models a missing variable and
`required_streak` is the already-parsed value of `PARITY_REQUIRED_STREAK`. -/
structure Env where
  repo : Option String
  token : Option String
  workflow_file : Option String
  required_streak : Int
  default_branch : Option String

/-- The query parameters of the list-runs request built by `main`. -/
structure ListRunsRequest where
  repo : String
  workflow_file : String
  branch : String
  status : String
  per_page : Nat
  deriving DecidableEq

/-- A network request issued by the gate: the initial list-runs call, or the
artifact fetch for the run at 1-based window position `pos`. -/
inductive Request where
  | listRuns (req : ListRunsRequest)
  | fetchArtifacts (pos : Nat) (runId : Option Int)
  deriving DecidableEq

/-- The outcome of one invocation: a clean pass or fail with the printed
line, or a crash from an uncaught exception (exit code 1 either way). -/
inductive GateResult where
  | pass (msg : String)
  | fail (msg : String)
  | crash (msg : String)
  deriving DecidableEq

/-- The process exit code of each outcome. -/
def exitCode : GateResult → Int
  | .pass _ => 0
  | .fail _ => 1
  | .crash _ => 1

/-- Python `not s` on an optional environment string: missing or empty. -/
def pyFalsy : Option String → Bool
  | none => true
  | some s => s.isEmpty

/-- Python slicing `xs[:n]` with an `int` bound. -/
def pySliceTo (xs : List α) (n : Int) : List α :=
  if 0 ≤ n then xs.take n.toNat
  else xs.take (xs.length - (-n).toNat)

/-- The success line printed on `Pass`. -/
def passedMsg (required_streak : Int) : String :=
  s!"Parity streak gate passed: last {required_streak} nightly runs succeeded with passing journey reports"

/-- The diagnostic printed when fewer runs than `required_streak` exist. -/
def needMsg (required_streak : Int) (found : Nat) : String :=
  s!"Parity streak gate failed: need {required_streak} completed nightly runs, found {found}"

/-- The diagnostic printed when an in-window run's conclusion is not
`"success"`. -/
def failConclusionMsg (idx : Nat) (runId : Option Int) (conclusion : Option String) : String :=
  let idStr := fmtOpt runId
  let concStr := fmtOptStr conclusion
  s!"Parity streak gate failed: run #{idx} (id={idStr}) conclusion={concStr}"

/-- The diagnostic printed when loading a run's report raised an exception. -/
def failLoadMsg (e : String) : String :=
  s!"Parity streak gate failed: {e}"

/-- The diagnostic printed when a run's report does not satisfy the pass
policy. -/
def failReportMsg (runId : Option Int) : String :=
  let idStr := fmtOpt runId
  s!"Parity streak gate failed: report in run id={idStr} did not pass required journeys"

/-- The per-run loop of `main` over `target_runs` with `enumerate(..., start=1)`:
check the conclusion, load the report, apply the pass policy; the request log
grows by one artifact fetch per run reached with a `"success"` conclusion. -/
def gateLoop (required_streak : Int) :
    List RunData → Nat → List Request → GateResult × List Request
  | [], _, log => (.pass (passedMsg required_streak), log)
  | run :: rest, idx, log =>
    if run.conclusion ≠ some "success" then
      (.fail (failConclusionMsg idx run.id run.conclusion), log)
    else
      let log2 := log ++ [Request.fetchArtifacts idx run.id]
      match load_report_from_run run.id run.artifactsResult with
      | .error e => (.fail (failLoadMsg e), log2)
      | .ok report =>
        if report_passes report then gateLoop required_streak rest (idx + 1) log2
        else (.fail (failReportMsg run.id), log2)

/-- `main` from the source: read the configuration, fail fast on a missing
repository or token, issue the list-runs request, check the run count, and
run the streak loop. Returns the outcome and the requests issued. -/
def main (env : Env) (world : World) : GateResult × List Request :=
  let required_streak := env.required_streak
  if pyFalsy env.repo then (.fail "GITHUB_REPOSITORY is required", [])
  else if pyFalsy env.token then (.fail "GITHUB_TOKEN is required", [])
  else
    let req : ListRunsRequest :=
      { repo := env.repo.getD ""
        workflow_file := env.workflow_file.getD "parity-nightly.yml"
        branch := env.default_branch.getD "main"
        status := "completed"
        per_page := 20 }
    let log : List Request := [.listRuns req]
    match world.listRunsResult with
    | .error e => (.crash e, log)
    | .ok payload =>
      let runs := payload.workflow_runs.getD []
      if (runs.length : Int) < required_streak then
        (.fail (needMsg required_streak runs.length), log)
      else
        gateLoop required_streak (pySliceTo runs required_streak) 1 log

/-- A run that clears steps (a)-(c) of the evaluator: `"success"` conclusion
and a successfully extracted report satisfying the pass policy. -/
def runPasses (run : RunData) : Prop :=
  run.conclusion = some "success" ∧
    ∃ report, load_report_from_run run.id run.artifactsResult = .ok report ∧
      report_passes report = true

/-- `true` iff `sub` occurs as a contiguous run inside `chars`. -/
def listContains (sub : List Char) : List Char → Bool
  | [] => sub.isEmpty
  | c :: rest => sub.isPrefixOf (c :: rest) || listContains sub rest

/-- `true` iff `sub` occurs as a substring of `msg` (used to state that a
diagnostic cites a run id). -/
def citesId (msg : String) (sub : String) : Bool :=
  listContains sub.data msg.data

lemma pySliceTo_of_nonneg (xs : List α) (n : Int) (h : 0 ≤ n) :
    pySliceTo xs n = xs.take n.toNat := by
  simp [pySliceTo, h]

lemma gateLoop_step (k : Int) (run : RunData) (rest : List RunData) (idx : Nat)
    (log : List Request) (h : runPasses run) :
    gateLoop k (run :: rest) idx log =
      gateLoop k rest (idx + 1) (log ++ [Request.fetchArtifacts idx run.id]) := by
  obtain ⟨hc, report, hload, hpass⟩ := h
  simp [gateLoop, hc, hload, hpass]

lemma gateLoop_pass (k : Int) :
    ∀ (runs : List RunData) (idx : Nat) (log : List Request),
      (∀ r ∈ runs, runPasses r) →
      (gateLoop k runs idx log).1 = .pass (passedMsg k)
  | [], _, _, _ => by simp [gateLoop]
  | run :: rest, idx, log, h => by
    rw [gateLoop_step k run rest idx log (h run (List.mem_cons_self run rest))]
    exact gateLoop_pass k rest (idx + 1) _ (fun r hr => h r (List.mem_cons_of_mem run hr))

lemma gateLoop_conc_fail (k : Int) :
    ∀ (pre : List RunData) (r : RunData) (rest : List RunData) (idx : Nat)
      (log : List Request),
      (∀ p ∈ pre, runPasses p) → r.conclusion ≠ some "success" →
      (gateLoop k (pre ++ r :: rest) idx log).1 =
          .fail (failConclusionMsg (idx + pre.length) r.id r.conclusion) ∧
        ∀ q ∈ (gateLoop k (pre ++ r :: rest) idx log).2,
          q ∈ log ∨ ∃ j rid, q = Request.fetchArtifacts j rid ∧ j < idx + pre.length
  | [], r, rest, idx, log, _, hconc => by
    constructor
    · simp [gateLoop, hconc]
    · intro q hq
      left
      simpa [gateLoop, hconc] using hq
  | p :: pre, r, rest, idx, log, hpre, hconc => by
    rw [List.cons_append,
      gateLoop_step k p (pre ++ r :: rest) idx log (hpre p (List.mem_cons_self p pre))]
    have ih := gateLoop_conc_fail k pre r rest (idx + 1)
      (log ++ [Request.fetchArtifacts idx p.id])
      (fun q hq => hpre q (List.mem_cons_of_mem p hq)) hconc
    have hidx : idx + 1 + pre.length = idx + (p :: pre).length := by
      simp only [List.length_cons]
      omega
    refine ⟨?_, ?_⟩
    · rw [ih.1, hidx]
    · intro q hq
      rcases ih.2 q hq with hmem | ⟨j, rid, hqe, hj⟩
      · rcases List.mem_append.mp hmem with h1 | h2
        · exact Or.inl h1
        · refine Or.inr ⟨idx, p.id, by simpa using h2, ?_⟩
          simp only [List.length_cons]
          omega
      · refine Or.inr ⟨j, rid, hqe, ?_⟩
        simp only [List.length_cons]
        omega

lemma gateLoop_load_fail (k : Int) :
    ∀ (pre : List RunData) (r : RunData) (rest : List RunData) (idx : Nat)
      (log : List Request) (e : String),
      (∀ p ∈ pre, runPasses p) → r.conclusion = some "success" →
      load_report_from_run r.id r.artifactsResult = .error e →
      (gateLoop k (pre ++ r :: rest) idx log).1 = .fail (failLoadMsg e)
  | [], r, rest, idx, log, e, _, hconc, herr => by
    simp [gateLoop, hconc, herr]
  | p :: pre, r, rest, idx, log, e, hpre, hconc, herr => by
    rw [List.cons_append,
      gateLoop_step k p (pre ++ r :: rest) idx log (hpre p (List.mem_cons_self p pre))]
    exact gateLoop_load_fail k pre r rest (idx + 1) _ e
      (fun q hq => hpre q (List.mem_cons_of_mem p hq)) hconc herr

lemma gateLoop_log_prefix (k : Int) :
    ∀ (runs : List RunData) (idx : Nat) (log : List Request),
      ∃ tail, (gateLoop k runs idx log).2 = log ++ tail
  | [], _, log => ⟨[], by simp [gateLoop]⟩
  | run :: rest, idx, log => by
    by_cases hc : run.conclusion = some "success"
    · cases hload : load_report_from_run run.id run.artifactsResult with
      | error e =>
        exact ⟨[Request.fetchArtifacts idx run.id], by simp [gateLoop, hc, hload]⟩
      | ok report =>
        by_cases hpass : report_passes report
        · obtain ⟨tail, htail⟩ :=
            gateLoop_log_prefix k rest (idx + 1) (log ++ [Request.fetchArtifacts idx run.id])
          refine ⟨[Request.fetchArtifacts idx run.id] ++ tail, ?_⟩
          rw [gateLoop_step k run rest idx log ⟨hc, report, hload, hpass⟩, htail]
          simp
        · refine ⟨[Request.fetchArtifacts idx run.id], ?_⟩
          simp only [Bool.not_eq_true] at hpass
          simp [gateLoop, hc, hload, hpass]
    · exact ⟨[], by simp [gateLoop, hc]⟩

/-- The list-runs request `main` issues once the configuration checks pass,
mirroring the query string built in the source (`status=completed`,
`per_page=20`, branch filter from `DEFAULT_BRANCH`). -/
def mainReq (env : Env) : ListRunsRequest :=
  { repo := env.repo.getD ""
    workflow_file := env.workflow_file.getD "parity-nightly.yml"
    branch := env.default_branch.getD "main"
    status := "completed"
    per_page := 20 }

lemma main_eq_gateLoop (env : Env) (world : World) (payload : ListRunsPayload)
    (runs : List RunData)
    (hrepo : pyFalsy env.repo = false) (htok : pyFalsy env.token = false)
    (hl : world.listRunsResult = .ok payload)
    (hruns : payload.workflow_runs.getD [] = runs)
    (hlen : env.required_streak ≤ (runs.length : Int)) :
    main env world =
      gateLoop env.required_streak (pySliceTo runs env.required_streak) 1
        [Request.listRuns (mainReq env)] := by
  have hnl : ¬((runs.length : Int) < env.required_streak) := not_lt.mpr hlen
  simp [main, hrepo, htok, hl, hruns, hnl, mainReq]

/-- A report with `overall_pass` set to the JSON boolean `true`. -/
def okReport : Report := [("overall_pass", JVal.bool true)]

/-- An artifacts payload holding a well-formed parity-journey-report
artifact whose archive contains `okReport`. -/
def okArtifacts : ArtifactsPayload :=
  { artifacts := some
      [{ name := "parity-journey-report"
         archiveResult := .ok
           [{ name := "parity_journey_report.json", content := .ok okReport }] }] }

/-- A run that fully satisfies the gate: success conclusion and a passing
report. -/
def okRun : RunData :=
  { id := some 1, conclusion := some "success", artifactsResult := .ok okArtifacts }

set_option maxRecDepth 8000 in
lemma okRun_passes : runPasses okRun :=
  ⟨rfl, okReport, rfl, rfl⟩

/-- C1: if the first `required_streak` runs all have conclusion `"success"`
and extracted reports satisfying the pass policy, the gate returns `Pass`
(exit code 0) with the summary message naming the streak length. -/
theorem C1 (env : Env) (world : World) (payload : ListRunsPayload) (runs : List RunData)
    (hrepo : pyFalsy env.repo = false) (htok : pyFalsy env.token = false)
    (hl : world.listRunsResult = .ok payload)
    (hruns : payload.workflow_runs.getD [] = runs)
    (hk : 0 ≤ env.required_streak)
    (hlen : env.required_streak ≤ (runs.length : Int))
    (hall : ∀ r ∈ runs.take env.required_streak.toNat, runPasses r) :
    (main env world).1 = .pass (passedMsg env.required_streak) ∧
      exitCode (main env world).1 = 0 := by
  rw [main_eq_gateLoop env world payload runs hrepo htok hl hruns hlen,
    pySliceTo_of_nonneg runs env.required_streak hk]
  have hp := gateLoop_pass env.required_streak (runs.take env.required_streak.toNat) 1
    [Request.listRuns (mainReq env)] hall
  refine ⟨hp, ?_⟩
  rw [hp]
  rfl

/-- The run list used by the C1 witness: two fully passing runs. -/
def runsW1 : List RunData := [okRun, okRun]

/-- The world used by the C1 witness. -/
def worldW1 : World := { listRunsResult := .ok { workflow_runs := some runsW1 } }

/-- The environment used by the C1 witness: streak of 2. -/
def envW1 : Env :=
  { repo := some "octo/deepseek-cli", token := some "tok", workflow_file := none
    required_streak := 2, default_branch := none }

/-- C1 witness: with two passing runs and a required streak of 2, the gate
passes with exit code 0. -/
theorem C1_witness :
    (main envW1 worldW1).1 = .pass (passedMsg 2) ∧ exitCode (main envW1 worldW1).1 = 0 :=
  C1 envW1 worldW1 { workflow_runs := some runsW1 } runsW1 rfl rfl rfl rfl
    (by decide) (by decide)
    (by
      intro r hr
      have heq : runsW1.take envW1.required_streak.toNat = [okRun, okRun] := rfl
      rw [heq] at hr
      have h : r = okRun := by
        rcases List.mem_cons.mp hr with h | h2
        · exact h
        · simpa using h2
      rw [h]
      exact okRun_passes)

/-- C3: a run list shorter than `required_streak` makes the gate fail (exit
code 1) with the message citing both the required streak and the number of
runs found, regardless of run content. -/
theorem C3 (env : Env) (world : World) (payload : ListRunsPayload) (runs : List RunData)
    (hrepo : pyFalsy env.repo = false) (htok : pyFalsy env.token = false)
    (hl : world.listRunsResult = .ok payload)
    (hruns : payload.workflow_runs.getD [] = runs)
    (hshort : (runs.length : Int) < env.required_streak) :
    (main env world).1 = .fail (needMsg env.required_streak runs.length) ∧
      exitCode (main env world).1 = 1 := by
  simp [main, hrepo, htok, hl, hruns, hshort, exitCode]

/-- The world used by the C3 witness: a single passing run. -/
def worldW3 : World := { listRunsResult := .ok { workflow_runs := some [okRun] } }

/-- The environment used by the C3 witness: streak of 3. -/
def envW3 : Env :=
  { repo := some "octo/deepseek-cli", token := some "tok", workflow_file := none
    required_streak := 3, default_branch := none }

/-- C3 witness: one run on file against a required streak of 3 fails with
the shortfall message. -/
theorem C3_witness :
    (main envW3 worldW3).1 = .fail (needMsg 3 1) ∧ exitCode (main envW3 worldW3).1 = 1 :=
  C3 envW3 worldW3 { workflow_runs := some [okRun] } [okRun] rfl rfl rfl rfl (by decide)

/-- C2: when the first non-success conclusion in the window sits at 1-based
position `pre.length + 1`, the gate fails citing that run's index, id and
conclusion, and issues no artifact fetch at that position or any later one,
whatever the later runs contain. -/
theorem C2 (env : Env) (world : World) (payload : ListRunsPayload) (runs : List RunData)
    (pre : List RunData) (r : RunData) (rest : List RunData)
    (hrepo : pyFalsy env.repo = false) (htok : pyFalsy env.token = false)
    (hl : world.listRunsResult = .ok payload)
    (hruns : payload.workflow_runs.getD [] = runs)
    (hlen : env.required_streak ≤ (runs.length : Int))
    (htarget : pySliceTo runs env.required_streak = pre ++ r :: rest)
    (hpre : ∀ p ∈ pre, runPasses p)
    (hconc : r.conclusion ≠ some "success") :
    (main env world).1 = .fail (failConclusionMsg (pre.length + 1) r.id r.conclusion) ∧
      exitCode (main env world).1 = 1 ∧
      ∀ q ∈ (main env world).2, ∀ j rid, q = Request.fetchArtifacts j rid → j ≤ pre.length := by
  rw [main_eq_gateLoop env world payload runs hrepo htok hl hruns hlen, htarget]
  have h := gateLoop_conc_fail env.required_streak pre r rest 1
    [Request.listRuns (mainReq env)] hpre hconc
  refine ⟨?_, ?_, ?_⟩
  · have h1 := h.1
    rw [Nat.add_comm 1 pre.length] at h1
    exact h1
  · rw [h.1]
    rfl
  · intro q hq j rid hqe
    rcases h.2 q hq with hmem | ⟨j2, rid2, hqe2, hj2⟩
    · have hql : q = Request.listRuns (mainReq env) := by simpa using hmem
      rw [hql] at hqe
      exact Request.noConfusion hqe
    · rw [hqe] at hqe2
      injection hqe2 with hje hride
      omega

/-- A run whose conclusion is `"failure"`; its artifact data is irrelevant
because the gate must not reach it. -/
def badConcRun : RunData :=
  { id := some 7, conclusion := some "failure", artifactsResult := .error "never fetched" }

/-- The run list used by the C2 witness: pass, failed conclusion, pass. -/
def runsW2 : List RunData := [okRun, badConcRun, okRun]

/-- The world used by the C2 witness. -/
def worldW2 : World := { listRunsResult := .ok { workflow_runs := some runsW2 } }

/-- The environment used by the C2 witness: streak of 3. -/
def envW2 : Env :=
  { repo := some "octo/deepseek-cli", token := some "tok", workflow_file := none
    required_streak := 3, default_branch := none }

/-- C2 witness: with the middle of three runs concluded `"failure"`, the
gate fails citing run #2, id 7, conclusion `failure`, and every artifact
fetch issued is for a position at or before 1. -/
theorem C2_witness :
    (main envW2 worldW2).1 = .fail (failConclusionMsg 2 (some 7) (some "failure")) ∧
      exitCode (main envW2 worldW2).1 = 1 ∧
      ∀ q ∈ (main envW2 worldW2).2, ∀ j rid, q = Request.fetchArtifacts j rid → j ≤ 1 :=
  C2 envW2 worldW2 { workflow_runs := some runsW2 } runsW2 [okRun] badConcRun [okRun]
    rfl rfl rfl rfl (by decide) rfl
    (by
      intro p hp
      have h : p = okRun := by simpa using hp
      rw [h]
      exact okRun_passes)
    (by decide)

/-- C4: a report whose `overall_pass` field is the JSON boolean `false`
fails the pass policy regardless of every other field. -/
theorem C4 (report : Report)
    (h : rget report "overall_pass" = some (JVal.bool false)) :
    report_passes report = false := by
  simp [report_passes, h, is_false]

/-- The report used by the C4 witness: `overall_pass=false` with all
required journeys true. -/
def report4 : Report :=
  [("overall_pass", JVal.bool false),
   ("required_journeys", JVal.obj [("a", JVal.bool true), ("b", JVal.bool true)])]

/-- C4 witness: `overall_pass=false` beats an all-true journey mapping. -/
theorem C4_witness : report_passes report4 = false :=
  C4 report4 rfl

/-- C5: when `overall_pass` is not explicitly `false`, a present
`required_journeys` mapping decides the policy (pass iff all values truthy,
vacuously for the empty mapping); without such a mapping the policy follows
the truthiness of `overall_pass`, passing when the field is absent. -/
theorem C5 (report : Report)
    (h : rget report "overall_pass" ≠ some (JVal.bool false)) :
    (∀ m, rget report "required_journeys" = some (JVal.obj m) →
      (report_passes report = true ↔ ∀ p ∈ m, truthy p.2 = true)) ∧
    ((∀ m, rget report "required_journeys" ≠ some (JVal.obj m)) →
      (rget report "overall_pass" = none → report_passes report = true) ∧
        ∀ v, rget report "overall_pass" = some v → report_passes report = truthy v) := by
  have hif : is_false (rget report "overall_pass") = false := by
    cases ho : rget report "overall_pass" with
    | none => rfl
    | some v =>
      cases v with
      | null => rfl
      | bool b =>
        cases b with
        | false => exact absurd ho h
        | true => rfl
      | num n => rfl
      | str s => rfl
      | arr xs => rfl
      | obj fs => rfl
  have hdef : (∀ m, rget report "required_journeys" ≠ some (JVal.obj m)) →
      report_passes report = truthy ((rget report "overall_pass").getD (JVal.bool true)) := by
    intro hd
    simp only [report_passes, hif, Bool.false_eq_true, if_false]
  constructor
  · intro m hm
    simp [report_passes, hif, hm, List.all_eq_true]
  · intro hnone
    refine ⟨?_, ?_⟩
    · intro ho
      rw [hdef hnone, ho]
      rfl
    · intro v hv
      rw [hdef hnone, hv]
      rfl

/-- The report used by the C5 witness: a journey mapping with a false entry
and no `overall_pass`. -/
def report5 : Report :=
  [("required_journeys", JVal.obj [("a", JVal.bool true), ("b", JVal.bool false)])]

/-- C5 witness: with `overall_pass` absent, the journey mapping decides the
policy. -/
theorem C5_witness :
    (∀ m, rget report5 "required_journeys" = some (JVal.obj m) →
      (report_passes report5 = true ↔ ∀ p ∈ m, truthy p.2 = true)) ∧
    ((∀ m, rget report5 "required_journeys" ≠ some (JVal.obj m)) →
      (rget report5 "overall_pass" = none → report_passes report5 = true) ∧
        ∀ v, rget report5 "overall_pass" = some v → report_passes report5 = truthy v) :=
  C5 report5
    (by
      have h : rget report5 "overall_pass" = none := rfl
      rw [h]
      simp)

/-- C9: a falsy but non-`false` `overall_pass` (`0`, `""` or `null`) does
not trigger the immediate-failure branch: with an all-truthy journey
mapping the policy passes. -/
theorem C9 (report : Report) (v : JVal) (m : List (String × JVal))
    (hv : rget report "overall_pass" = some v)
    (hfalsy : v = JVal.num 0 ∨ v = JVal.str "" ∨ v = JVal.null)
    (hm : rget report "required_journeys" = some (JVal.obj m))
    (hall : ∀ p ∈ m, truthy p.2 = true) :
    report_passes report = true := by
  have hif : is_false (rget report "overall_pass") = false := by
    rw [hv]
    rcases hfalsy with h | h | h <;> (rw [h]; rfl)
  simp only [report_passes, hif, hm, Bool.false_eq_true, if_false]
  exact List.all_eq_true.mpr hall

/-- The report used by the C9 witness: `overall_pass=0` with an all-truthy
journey mapping. -/
def report9 : Report :=
  [("overall_pass", JVal.num 0),
   ("required_journeys", JVal.obj [("a", JVal.bool true), ("b", JVal.num 5)])]

/-- C9 witness: `overall_pass=0` is falsy but not `false`, so the all-truthy
mapping makes the policy pass. -/
theorem C9_witness : report_passes report9 = true :=
  C9 report9 (JVal.num 0) [("a", JVal.bool true), ("b", JVal.num 5)] rfl (Or.inl rfl) rfl
    (by
      intro p hp
      rcases List.mem_cons.mp hp with h | h2
      · rw [h]
        rfl
      · have h : p = ("b", JVal.num 5) := by simpa using h2
        rw [h]
        rfl)

/-- A success-concluded run whose artifact fetch fails with a transport
error message that does not mention the run's id (42). -/
def badLoadRun : RunData :=
  { id := some 42, conclusion := some "success",
    artifactsResult := .error "network unreachable" }

/-- The environment used for C6: streak of 1. -/
def envC6 : Env :=
  { repo := some "octo/deepseek-cli", token := some "tok", workflow_file := none
    required_streak := 1, default_branch := none }

/-- The world used for C6: a single success run whose artifact fetch fails. -/
def worldC6 : World := { listRunsResult := .ok { workflow_runs := some [badLoadRun] } }

/-- C6 counterexample: a network failure while fetching run 42's artifact
list makes the gate print only the underlying error, which does not cite
the run's id — refuting the claim that every extraction or client error
yields a diagnostic citing the run id. -/
theorem C6_counterexample :
    (main envC6 worldC6).1 = .fail (failLoadMsg "network unreachable") ∧
      citesId "Parity streak gate failed: network unreachable" "42" = false :=
  ⟨rfl, rfl⟩

/-- C6 amended: an extraction or client error on an in-window success run
makes the gate fail (exit code 1) with the diagnostic
`Parity streak gate failed: ` followed by the underlying error message;
that message names the run id only when the error itself carries it, as
the extractor's missing-artifact and missing-report errors do. -/
theorem C6_amended (env : Env) (world : World) (payload : ListRunsPayload)
    (runs : List RunData) (pre : List RunData) (r : RunData) (rest : List RunData)
    (e : String)
    (hrepo : pyFalsy env.repo = false) (htok : pyFalsy env.token = false)
    (hl : world.listRunsResult = .ok payload)
    (hruns : payload.workflow_runs.getD [] = runs)
    (hlen : env.required_streak ≤ (runs.length : Int))
    (htarget : pySliceTo runs env.required_streak = pre ++ r :: rest)
    (hpre : ∀ p ∈ pre, runPasses p)
    (hconc : r.conclusion = some "success")
    (herr : load_report_from_run r.id r.artifactsResult = .error e) :
    (main env world).1 = .fail (failLoadMsg e) ∧ exitCode (main env world).1 = 1 := by
  rw [main_eq_gateLoop env world payload runs hrepo htok hl hruns hlen, htarget]
  have h := gateLoop_load_fail env.required_streak pre r rest 1
    [Request.listRuns (mainReq env)] e hpre hconc herr
  refine ⟨h, ?_⟩
  rw [h]
  rfl

/-- C6 witness: the artifact-fetch failure on the single in-window success
run fails the gate with the underlying error in the diagnostic. -/
theorem C6_witness :
    (main envC6 worldC6).1 = .fail (failLoadMsg "network unreachable") ∧
      exitCode (main envC6 worldC6).1 = 1 :=
  C6_amended envC6 worldC6 { workflow_runs := some [badLoadRun] } [badLoadRun]
    [] badLoadRun [] "network unreachable" rfl rfl rfl rfl (by decide) rfl
    (by intro p hp; exact absurd hp (List.not_mem_nil p)) rfl rfl

/-- C7 amended: the list-runs request is always the first request issued,
filtered by the configured branch with `status=completed`, and carries the
fixed page size 20 — which is at least `required_streak` exactly when
`required_streak ≤ 20`. -/
theorem C7_amended (env : Env) (world : World)
    (hrepo : pyFalsy env.repo = false) (htok : pyFalsy env.token = false) :
    ∃ rest, (main env world).2 = Request.listRuns (mainReq env) :: rest ∧
      (mainReq env).status = "completed" ∧
      (mainReq env).branch = env.default_branch.getD "main" ∧
      (mainReq env).per_page = 20 ∧
      (env.required_streak ≤ 20 → env.required_streak ≤ ((mainReq env).per_page : Int)) := by
  have hlast : env.required_streak ≤ 20 →
      env.required_streak ≤ ((mainReq env).per_page : Int) := by
    intro h
    simpa [mainReq] using h
  cases hw : world.listRunsResult with
  | error e =>
    refine ⟨[], ?_, rfl, rfl, rfl, hlast⟩
    simp [main, hrepo, htok, hw, mainReq]
  | ok payload =>
    by_cases hlen : ((payload.workflow_runs.getD []).length : Int) < env.required_streak
    · refine ⟨[], ?_, rfl, rfl, rfl, hlast⟩
      simp [main, hrepo, htok, hw, hlen, mainReq]
    · obtain ⟨tail, htail⟩ := gateLoop_log_prefix env.required_streak
        (pySliceTo (payload.workflow_runs.getD []) env.required_streak) 1
        [Request.listRuns (mainReq env)]
      refine ⟨tail, ?_, rfl, rfl, rfl, hlast⟩
      have hm : (main env world).2 =
          (gateLoop env.required_streak
            (pySliceTo (payload.workflow_runs.getD []) env.required_streak) 1
            [Request.listRuns (mainReq env)]).2 := by
        simp [main, hrepo, htok, hw, hlen, mainReq]
      rw [hm, htail]
      simp

/-- The environment used by the C7 counterexample: required streak 21,
larger than the fixed page size. -/
def envC7 : Env :=
  { repo := some "octo/deepseek-cli", token := some "tok", workflow_file := none
    required_streak := 21, default_branch := none }

/-- The world used for C7: the list-runs call fails, so the request log
holds exactly the one list-runs request. -/
def worldC7 : World := { listRunsResult := .error "offline" }

/-- C7 counterexample: with `required_streak = 21` the gate still issues
the list-runs request with page size 20, which is smaller than the
required streak — refuting the claimed `per_page ≥ required_streak`. -/
theorem C7_counterexample :
    (main envC7 worldC7).2 = [Request.listRuns (mainReq envC7)] ∧
      ((mainReq envC7).per_page : Int) < envC7.required_streak :=
  ⟨rfl, by decide⟩

/-- The environment used by the C7 witness: the default streak of 3. -/
def envW7 : Env :=
  { repo := some "octo/deepseek-cli", token := some "tok", workflow_file := none
    required_streak := 3, default_branch := some "release" }

/-- C7 witness: with a streak of 3 and branch `release`, the first request
is the list-runs call filtered by that branch, `status=completed`, page
size 20 ≥ 3. -/
theorem C7_witness :
    ∃ rest, (main envW7 worldC7).2 = Request.listRuns (mainReq envW7) :: rest ∧
      (mainReq envW7).status = "completed" ∧
      (mainReq envW7).branch = Option.getD envW7.default_branch "main" ∧
      (mainReq envW7).per_page = 20 ∧
      (envW7.required_streak ≤ 20 → envW7.required_streak ≤ ((mainReq envW7).per_page : Int)) :=
  C7_amended envW7 worldC7 rfl rfl

/-- C8: a missing repository identifier or access credential makes the
gate exit with code 1 before issuing any network request, whatever the
other configuration values and the state of the world. -/
theorem C8 (env : Env) (world : World)
    (h : env.repo = none ∨ env.token = none) :
    exitCode (main env world).1 = 1 ∧ (main env world).2 = [] := by
  rcases h with h | h
  · have hr : pyFalsy env.repo = true := by
      rw [h]
      rfl
    simp [main, hr, exitCode]
  · by_cases hr : pyFalsy env.repo = true
    · simp [main, hr, exitCode]
    · simp only [Bool.not_eq_true] at hr
      have ht : pyFalsy env.token = true := by
        rw [h]
        rfl
      simp [main, hr, ht, exitCode]

/-- The environment used by the C8 witness: token present, repository
identifier missing. -/
def envC8 : Env :=
  { repo := none, token := some "tok", workflow_file := some "parity-nightly.yml"
    required_streak := 3, default_branch := some "main" }

/-- The world used by the C8 witness: it would fail if contacted. -/
def worldC8 : World := { listRunsResult := .error "must not be reached" }

/-- C8 witness: with no repository configured the gate exits 1 without
issuing any request. -/
theorem C8_witness :
    exitCode (main envC8 worldC8).1 = 1 ∧ (main envC8 worldC8).2 = [] :=
  C8 envC8 worldC8 (Or.inl rfl)

/-- C10: a list-runs response lacking the `workflow_runs` key is treated as
an empty run list: with a positive required streak the gate fails with the
insufficient-history message citing 0 runs found. -/
theorem C10 (env : Env) (world : World) (payload : ListRunsPayload)
    (hrepo : pyFalsy env.repo = false) (htok : pyFalsy env.token = false)
    (hl : world.listRunsResult = .ok payload)
    (hmissing : payload.workflow_runs = none)
    (hpos : 0 < env.required_streak) :
    (main env world).1 = .fail (needMsg env.required_streak 0) ∧
      exitCode (main env world).1 = 1 := by
  simp [main, hrepo, htok, hl, hmissing, hpos, exitCode]

/-- The environment used by the C10 witness: the default streak of 3. -/
def envC10 : Env :=
  { repo := some "octo/deepseek-cli", token := some "tok", workflow_file := none
    required_streak := 3, default_branch := none }

/-- The world used by the C10 witness: a response without the
`workflow_runs` key. -/
def worldC10 : World := { listRunsResult := .ok { workflow_runs := none } }

/-- C10 witness: the key-less response fails the gate citing 0 runs. -/
theorem C10_witness :
    (main envC10 worldC10).1 = .fail (needMsg 3 0) ∧
      exitCode (main envC10 worldC10).1 = 1 :=
  C10 envC10 worldC10 { workflow_runs := none } rfl rfl rfl rfl (by decide)

end ParityGate
